import Mathlib

/-!
Shallow embedding of the key_ticket_system broker (src/app): the OAuth
callback flow (app/main.py `oauth_callback`), the session credential
issue/verify pair (app/services/auth.py `create_token` / `decode_token`),
the playback-session endpoint (app/main.py `get_session_id`,
app/routers/session.py `get_session`), the provider helpers
(app/main.py `_get_jstream_user_session_id`,
app/services/jstream.py `get_jstream_session_id`), and the shared
client-token cache (app/services/jstream.py `get_jstream_client_token`)
as an interleaving state machine whose steps are the atomic segments
between await points.

Upstream HTTP calls are modelled by oracles (`UpResp`): the broker code is
translated faithfully, the network is a parameter.  Machine time is a `Nat`
parameter `now` standing for `int(time.time())`.
-/

namespace KeyTicket

/-! ## Association-list maps (Python dict with string keys) -/

/-- `d[k] = v` on a dict represented as an assoc list: update in place if the
key is present, append otherwise. -/
def insertAssoc (k : String) (v : Bool) : List (String × Bool) → List (String × Bool)
  | [] => [(k, v)]
  | (k2, v2) :: rest =>
    if k2 = k then (k2, v) :: rest else (k2, v2) :: insertAssoc k v rest

/-- `d.get(k)` on a dict represented as an assoc list. -/
def lookupAssoc (k : String) : List (String × Bool) → Option Bool
  | [] => none
  | (k2, v) :: rest => if k2 = k then some v else lookupAssoc k rest

theorem lookupAssoc_insertAssoc (k : String) (v : Bool) (m : List (String × Bool)) (s : String) :
    lookupAssoc s (insertAssoc k v m) = if k = s then some v else lookupAssoc s m := by
  induction m with
  | nil =>
    by_cases h : k = s <;> simp [insertAssoc, lookupAssoc, h]
  | cons kv rest ih =>
    obtain ⟨k2, v2⟩ := kv
    by_cases h2 : k2 = k
    · subst h2
      by_cases h : k2 = s <;> simp [insertAssoc, lookupAssoc, h]
    · by_cases h : k2 = s
      · subst h
        have : ¬ k = k2 := fun hc => h2 hc.symm
        simp [insertAssoc, lookupAssoc, h2, this]
      · simp [insertAssoc, lookupAssoc, h2, h, ih]

/-! ## JWT model (PyJWT with a symmetric secret, pinned HS256)

A token value is either a well-formed signed token (payload, the secret it
was signed with, the algorithm named in its header) or a malformed string.
`jwt.decode(token, secret, algorithms=["HS256"])` succeeds iff the token is
well formed, its signature was produced with the verifier secret, and its
header algorithm is the pinned HS256; it then raises `ExpiredSignatureError`
iff `exp <= now` (leeway 0), and `InvalidTokenError` for every signature,
format or algorithm mismatch. -/

/-- Claims found in the broker's JWTs; absent dict keys are `none`. -/
structure JwtPayload where
  email : Option String
  has_ticket : Option Bool
  jstream_registered_tracks : Option (List (String × Bool))
  exp : Nat
deriving DecidableEq, Repr

/-- A token string as the verifier sees it. -/
inductive TokenStr where
  | signed (payload : JwtPayload) (secret : String) (alg : String)
  | malformed (raw : String)
deriving DecidableEq, Repr

inductive DecodeError where
  | expired
  | invalid
deriving DecidableEq, Repr

/-- `jwt.decode(token, secret, algorithms=["HS256"])`. -/
def jwtDecode (t : TokenStr) (secret : String) (now : Nat) : Except DecodeError JwtPayload :=
  match t with
  | .malformed _ => .error .invalid
  | .signed p sec alg =>
    if sec = secret ∧ alg = "HS256" then
      if p.exp ≤ now then .error .expired else .ok p
    else .error .invalid

/-- HTTPException as surfaced to the client: status code and detail. -/
structure HttpError where
  status : Nat
  detail : String
deriving DecidableEq, Repr

/-- app/services/auth.py `create_token(email, has_ticket, jstream_tracks)`:
payload `email`, `has_ticket`, `jstream_registered_tracks`,
`exp = int(time.time()) + JWT_EXP`, signed HS256 with `JWT_SECRET`. -/
def create_token (email : String) (has_ticket : Bool)
    (jstream_tracks : List (String × Bool)) (secret : String) (now jwt_exp : Nat) : TokenStr :=
  .signed ⟨some email, some has_ticket, some jstream_tracks, now + jwt_exp⟩ secret "HS256"

/-- app/services/auth.py `decode_token(token)`: `jwt.decode` with
`ExpiredSignatureError ↦ HTTPException(401, "Token expired")` and
`InvalidTokenError ↦ HTTPException(401, "Invalid token")`. -/
def decode_token (t : TokenStr) (secret : String) (now : Nat) : Except HttpError JwtPayload :=
  match jwtDecode t secret now with
  | .ok p => .ok p
  | .error .expired => .error ⟨401, "Token expired"⟩
  | .error .invalid => .error ⟨401, "Invalid token"⟩

/-! ## Upstream call outcomes -/

/-- Outcome of one outbound HTTP call: a 2xx body, a non-2xx status
(`httpx.HTTPStatusError` from `raise_for_status`), or a transport-level
error (any other exception). -/
inductive UpResp (α : Type) where
  | ok (val : α)
  | httpErr (status : Nat)
  | netErr
deriving DecidableEq, Repr

/-! ## Orders and the entitlement bit (app/main.py lines 259-263) -/

/-- One position (line item) of a Pretix order; `item` is `pos.get("item")`. -/
structure Position where
  item : Option Int
deriving DecidableEq, Repr

structure Order where
  positions : List Position
deriving DecidableEq, Repr

/-- The decoded body of the Pretix orders response; `results` is
`orders_data.get("results", [])`. -/
structure OrdersData where
  results : List Order
deriving DecidableEq, Repr

/-- `has_ticket = any(pos.get("item") == LIVE_TICKET_ID for order in
orders_data.get("results", []) for pos in order.get("positions", []))`. -/
def hasTicketOf (orders : OrdersData) (live_ticket_id : Int) : Bool :=
  orders.results.any fun o => o.positions.any fun p => p.item == some live_ticket_id

/-! ## Stream registration loop (app/main.py lines 266-285) -/

/-- One entry of `config["live"]["track"]`. -/
structure Track where
  track : Option String
  stream_id : Option String
deriving DecidableEq, Repr

/-- Provider calls made by a handler, in order. -/
inductive JCall where
  | clientToken
  | register (sid : String)
  | session (sid : String)
deriving DecidableEq, Repr

/-- The registration loop body, accumulating the
`jstream_registered_tracks` dict: tracks without a `stream_id` are skipped;
for each configured `stream_id` the registration call is attempted and the
entry is set to `True` exactly when it succeeds (`regSuccess`); a failing
call is logged and the loop continues. -/
def runRegistration (regSuccess : String → Bool) :
    List Track → List (String × Bool) → List (String × Bool)
  | [], acc => acc
  | t :: rest, acc =>
    match t.stream_id with
    | none => runRegistration regSuccess rest acc
    | some sid =>
      runRegistration regSuccess rest (if regSuccess sid then insertAssoc sid true acc else acc)

/-- The stream ids for which a registration call is attempted (one per track
carrying a `stream_id`, independent of the call outcome). -/
def registrationCalls : List Track → List String
  | [] => []
  | t :: rest =>
    match t.stream_id with
    | none => registrationCalls rest
    | some sid => sid :: registrationCalls rest

theorem lookupAssoc_runRegistration (regSuccess : String → Bool) (tracks : List Track)
    (acc : List (String × Bool)) (s : String) :
    lookupAssoc s (runRegistration regSuccess tracks acc) = some true ↔
      (s ∈ registrationCalls tracks ∧ regSuccess s = true) ∨ lookupAssoc s acc = some true := by
  induction tracks generalizing acc with
  | nil => simp [runRegistration, registrationCalls]
  | cons t rest ih =>
    match htrack : t.stream_id with
    | none =>
      simp [runRegistration, registrationCalls, htrack, ih]
    | some sid =>
      by_cases hs : s = sid
      · subst hs
        by_cases hr : regSuccess s = true
        · simp [runRegistration, registrationCalls, htrack, hr, ih,
            lookupAssoc_insertAssoc]
        · simp [runRegistration, registrationCalls, htrack, hr, ih,
            Bool.not_eq_true]
      · by_cases hr : regSuccess sid = true
        · have hne : ¬ sid = s := fun hc => hs hc.symm
          simp [runRegistration, registrationCalls, htrack, hr, ih,
            lookupAssoc_insertAssoc, hne, hs]
        · simp [runRegistration, registrationCalls, htrack, hr, ih, hs]

/-- A stream whose every registration call fails is never written into the
map. -/
theorem lookupAssoc_runRegistration_fail (regSuccess : String → Bool) (tracks : List Track)
    (acc : List (String × Bool)) (s : String) (hfail : regSuccess s = false) :
    lookupAssoc s (runRegistration regSuccess tracks acc) = lookupAssoc s acc := by
  induction tracks generalizing acc with
  | nil => simp [runRegistration]
  | cons t rest ih =>
    match htrack : t.stream_id with
    | none => simp [runRegistration, htrack, ih]
    | some sid =>
      by_cases hs : sid = s
      · subst hs
        simp [runRegistration, htrack, hfail, ih]
      · by_cases hr : regSuccess sid = true
        · simp [runRegistration, htrack, hr, ih, lookupAssoc_insertAssoc, hs]
        · simp [runRegistration, htrack, hr, ih]

/-! ## OAuth callback (app/main.py `oauth_callback`, lines 186-318) -/

/-- The upstream world one callback request observes: the Pretix token
exchange body's `access_token` field, the userinfo body's `email` field, the
orders body, the J-Stream client-credentials response, and the per-stream
registration outcome. -/
structure CallbackEnv where
  tokenResp : UpResp (Option String)
  userResp : UpResp (Option String)
  ordersResp : UpResp OrdersData
  clientTokResp : UpResp (Option String)
  regSuccess : String → Bool

/-- The successful callback response: the redirect target page, the
short-lived front token carried in the redirect query, and the server token
set as an http-only cookie, together with the values they were built from. -/
structure CallbackOk where
  email : String
  has_ticket : Bool
  jstream_registered_tracks : List (String × Bool)
  front_token : TokenStr
  server_token : TokenStr
  redirectPage : String
deriving DecidableEq, Repr

/-- app/main.py `oauth_callback`: exchange the code, fetch the email, fetch
the orders, compute `has_ticket`, register the ticket holder for every
configured stream (failures logged and skipped), then mint the front token
(`has_ticket`, 60 s expiry) and the server token (`email`,
`jstream_registered_tracks`, `JWT_EXP` expiry) and redirect.  The returned
`List JCall` is the trace of J-Stream calls the handler made. -/
def oauth_callback (env : CallbackEnv) (tracks : List Track) (live_ticket_id : Int)
    (secret static_page_url : String) (jwt_exp now : Nat) :
    Except HttpError (CallbackOk × List JCall) :=
  match env.tokenResp with
  | .httpErr st => .error ⟨st, "Failed to exchange code for token"⟩
  | .netErr => .error ⟨500, "Network error during token exchange."⟩
  | .ok none => .error ⟨400, "Failed to get access token from token endpoint."⟩
  | .ok (some _) =>
    match env.userResp with
    | .httpErr st => .error ⟨st, "Failed to fetch user info"⟩
    | .netErr => .error ⟨500, "Network error during user info fetch."⟩
    | .ok none => .error ⟨400, "Email not found in user info."⟩
    | .ok (some email) =>
      match env.ordersResp with
      | .httpErr st => .error ⟨st, "Failed to fetch orders"⟩
      | .netErr => .error ⟨500, "Network error during orders fetch."⟩
      | .ok orders_data =>
        let has_ticket := hasTicketOf orders_data live_ticket_id
        if has_ticket then
          match env.clientTokResp with
          | .httpErr st => .error ⟨st, "Failed to get JSTREAM client token"⟩
          | .netErr => .error ⟨500, "J-Stream Access Token取得中にエラーが発生しました"⟩
          | .ok _ =>
            let registered := runRegistration env.regSuccess tracks []
            .ok (⟨email, true, registered,
                  .signed ⟨none, some true, none, now + 60⟩ secret "HS256",
                  .signed ⟨some email, none, some registered, now + jwt_exp⟩ secret "HS256",
                  static_page_url⟩,
                 JCall.clientToken :: (registrationCalls tracks).map JCall.register)
        else
          .ok (⟨email, false, [],
                .signed ⟨none, some false, none, now + 60⟩ secret "HS256",
                .signed ⟨some email, none, some [], now + jwt_exp⟩ secret "HS256",
                static_page_url⟩,
               [])

/-! ## Playback-session helpers -/

/-- app/main.py `_get_jstream_user_session_id` (lines 140-181): on a 2xx
response it returns `response.json().get("session_id")` even when the field
is absent (a missing id is only logged as a warning); a non-2xx response or
transport error raises an HTTPException. -/
def getJstreamUserSessionId (resp : UpResp (Option String)) : Except HttpError (Option String) :=
  match resp with
  | .ok sid => .ok sid
  | .httpErr st => .error ⟨st, "Failed to get JSTREAM user session ID"⟩
  | .netErr => .error ⟨500, "JSTREAMセッションID取得中にエラーが発生しました。"⟩

/-- app/services/jstream.py `get_jstream_session_id` (lines 95-123): a 2xx
response lacking `session_id` raises a `ValueError` that the handler's own
`except Exception` turns into a 500 HTTPException; non-2xx keeps the
upstream status. -/
def get_jstream_session_id (resp : UpResp (Option String)) : Except HttpError String :=
  match resp with
  | .ok (some sid) => .ok sid
  | .ok none => .error ⟨500, "J-StreamセッションIDの取得に失敗しました。"⟩
  | .httpErr st => .error ⟨st, "J-StreamセッションIDの取得に失敗しました。"⟩
  | .netErr => .error ⟨500, "J-StreamセッションIDの取得に失敗しました。"⟩

/-- The fixed known-good test stream URL substituted when `is_debug` is set. -/
def debugTestUrl : String := "https://test-streams.mux.dev/x36xhzz/x36xhzz.m3u8"

/-- The placeholder replaced by the session id in `AUTHENTICATED_URL`. -/
def sessionIdPattern : String := "\x7bsession_id\x7d"

/-- `AUTHENTICATED_URL.replace("{session_id}", session_id)` guarded by the
debug flag.  When `is_debug` is false and the session id is `None`, Python's
`str.replace(pattern, None)` raises a `TypeError` that the handler's
catch-all turns into a 500. -/
def buildPlaybackUrl (is_debug : Bool) (sid : Option String) (authenticated_url : String) :
    Except HttpError String :=
  if is_debug then .ok debugTestUrl
  else
    match sid with
    | some s => .ok (authenticated_url.replace sessionIdPattern s)
    | none => .error ⟨500, "Error occurred while obtaining session ID"⟩

/-- The token used by `/session` in app/main.py: the `server_token` cookie
if present, else the stripped `Authorization: Bearer` header. -/
def pickToken (cookieTok bearerTok : Option TokenStr) : Option TokenStr :=
  match cookieTok with
  | some t => some t
  | none => bearerTok

/-! ## /session handler (app/main.py `get_session_id`, lines 323-384) -/

/-- app/main.py `get_session_id`: pick the token (cookie, then bearer
header; 401 if absent), decode it (401 on expiry or invalidity), read
`decoded_jwt["email"]` (a missing key raises `KeyError`, which only the
catch-all `except Exception` handles, yielding a generic 500), check
`registered_tracks.get(stream_id, False)` (403 if not `True`), then fetch
the J-Stream client token, the user session id, and build the playback URL.
The `List JCall` component is the trace of J-Stream calls made. -/
def get_session_id (cookieTok bearerTok : Option TokenStr) (secret : String) (now : Nat)
    (stream_id : String) (is_debug : Bool)
    (clientTokResp sessionResp : UpResp (Option String)) (authenticated_url : String) :
    Except HttpError String × List JCall :=
  match pickToken cookieTok bearerTok with
  | none => (.error ⟨401, "Missing server token"⟩, [])
  | some tok =>
    match jwtDecode tok secret now with
    | .error .expired => (.error ⟨401, "Token expired"⟩, [])
    | .error .invalid => (.error ⟨401, "Invalid token"⟩, [])
    | .ok payload =>
      match payload.email with
      | none => (.error ⟨500, "Error occurred while obtaining session ID"⟩, [])
      | some _email =>
        let registered_tracks := payload.jstream_registered_tracks.getD []
        if (lookupAssoc stream_id registered_tracks).getD false = false then
          (.error ⟨403, "User not registered for this stream."⟩, [])
        else
          match clientTokResp with
          | .httpErr st => (.error ⟨st, "Failed to get JSTREAM client token"⟩, [JCall.clientToken])
          | .netErr =>
            (.error ⟨500, "J-Stream Access Token取得中にエラーが発生しました"⟩, [JCall.clientToken])
          | .ok _ =>
            match getJstreamUserSessionId sessionResp with
            | .error e => (.error e, [JCall.clientToken, JCall.session stream_id])
            | .ok sid =>
              (buildPlaybackUrl is_debug sid authenticated_url,
               [JCall.clientToken, JCall.session stream_id])

/-! ## Router variants (app/routers/session.py, app/routers/auth.py) -/

/-- app/routers/session.py `get_session`: token from the query string,
decode via services `decode_token` (its HTTPException propagates),
`decoded.get("email")`, the same registration check (403), then the
services-variant client-token and session-id helpers. -/
def get_session (tok : TokenStr) (secret : String) (now : Nat) (stream_id : String)
    (clientTokResp sessionResp : UpResp (Option String)) (authenticated_url : String) :
    Except HttpError String × List JCall :=
  match decode_token tok secret now with
  | .error e => (.error e, [])
  | .ok payload =>
    let registered_tracks := payload.jstream_registered_tracks.getD []
    if (lookupAssoc stream_id registered_tracks).getD false = false then
      (.error ⟨403, "User is not registered for this stream."⟩, [])
    else
      match clientTokResp with
      | .httpErr st =>
        (.error ⟨st, "J-Streamクライアントトークンの取得に失敗しました。"⟩, [JCall.clientToken])
      | .netErr =>
        (.error ⟨500, "J-Streamクライアントトークンの取得に失敗しました。"⟩, [JCall.clientToken])
      | .ok _ =>
        match get_jstream_session_id sessionResp with
        | .error e => (.error e, [JCall.clientToken, JCall.session stream_id])
        | .ok sid =>
          (.ok (authenticated_url.replace sessionIdPattern sid),
           [JCall.clientToken, JCall.session stream_id])

/-- app/routers/auth.py `verify` (lines 52-59): decode the token and return
`decoded["email"]`, `decoded["has_ticket"]`,
`decoded.get("jstream_registered_tracks", {})`; a `KeyError` on the first
two (no handler in the route) surfaces as the framework's 500. -/
def verify (tok : TokenStr) (secret : String) (now : Nat) :
    Except HttpError (String × Bool × List (String × Bool)) :=
  match decode_token tok secret now with
  | .error e => .error e
  | .ok payload =>
    match payload.email, payload.has_ticket with
    | some e, some h => .ok (e, h, payload.jstream_registered_tracks.getD [])
    | _, _ => .error ⟨500, "Internal Server Error"⟩

/-! ## Shared client-token cache (app/services/jstream.py `get_jstream_client_token`)

The coroutine's atomic segments (asyncio switches tasks only at `await`):

* segment 1 (entry up to the `await client.post`): read the globals
  `_client_token` / `_client_token_expiry`; if `_client_token` is truthy and
  `_client_token_expiry > time.time()`, return the cached token without any
  upstream call; otherwise issue the refresh POST (one upstream call) and
  suspend;
* segment 2 (from the response to `return`): write `_client_token` and
  `_client_token_expiry = time.time() + expires_in - 60` without an
  intervening await (so the pair is never observed torn) and return the
  token.

Tasks are indexed by `Nat`; `resp k` is the body of the `k`-th refresh call
issued (its `client_token` and `expires_in`).  `now` stands for
`time.time()`, held fixed across the run. -/

/-- Progress of one caller of `get_jstream_client_token`. -/
inductive TaskState where
  | start
  | awaitingRefresh (callIdx : Nat)
  | done (result : String)
deriving DecidableEq, Repr

/-- The process state: the two module globals, every task's progress, and
the number of refresh calls issued so far. -/
structure SysState where
  token : String
  expiry : Nat
  tasks : Nat → TaskState
  calls : Nat

/-- Pointwise task update (tasks are identified by their index). -/
def updateTask (f : Nat → TaskState) (i : Nat) (v : TaskState) : Nat → TaskState :=
  fun j => if j = i then v else f j

/-- Run one atomic segment of task `i`. -/
def step (resp : Nat → String × Nat) (now : Nat) (s : SysState) (i : Nat) : SysState :=
  match s.tasks i with
  | .start =>
    if s.token ≠ "" ∧ s.expiry > now then
      ⟨s.token, s.expiry, updateTask s.tasks i (.done s.token), s.calls⟩
    else
      ⟨s.token, s.expiry, updateTask s.tasks i (.awaitingRefresh s.calls), s.calls + 1⟩
  | .awaitingRefresh k =>
    ⟨(resp k).1, now + (resp k).2 - 60, updateTask s.tasks i (.done (resp k).1), s.calls⟩
  | .done _ => s

/-- Run a schedule: the listed task indices take their next atomic segment
in order. -/
def runSched (resp : Nat → String × Nat) (now : Nat) (s : SysState) (sched : List Nat) :
    SysState :=
  sched.foldl (step resp now) s

/-- Module load state: `_client_token = ""`, `_client_token_expiry = 0`,
every task at its entry point, no refresh call issued. -/
def initSys : SysState := ⟨"", 0, fun _ => .start, 0⟩

/-- The fully overlapped schedule: all of tasks `0..n-1` run their first
segment (cache check) before any of them receives its response. -/
def interleavedSched (n : Nat) : List Nat := List.range n ++ List.range n

theorem runSched_append (resp : Nat → String × Nat) (now : Nat) (s : SysState)
    (l1 l2 : List Nat) :
    runSched resp now s (l1 ++ l2) = runSched resp now (runSched resp now s l1) l2 :=
  List.foldl_append ..

/-- After the first phase of the overlapped schedule, every task `i < j` has
issued its own refresh call (call index `i`) and the cache is still empty. -/
theorem cache_phase1 (resp : Nat → String × Nat) (now : Nat) (j : Nat) :
    runSched resp now initSys (List.range j) =
      ⟨"", 0, fun i => if i < j then .awaitingRefresh i else .start, j⟩ := by
  induction j with
  | zero =>
    simp [runSched, initSys]
  | succ j ih =>
    rw [List.range_succ, runSched_append, ih]
    show step resp now _ j = _
    have hj : (if j < j then TaskState.awaitingRefresh j else TaskState.start)
        = TaskState.start := by simp
    simp only [step, hj]
    rw [if_neg (by simp)]
    refine congrArg (fun t => SysState.mk "" 0 t (j + 1)) ?_
    funext i
    by_cases hij : i = j
    · subst hij
      simp [updateTask]
    · by_cases hlt : i < j
      · simp [updateTask, hij, hlt, Nat.lt_succ_of_lt hlt]
      · have : ¬ i < j + 1 := by omega
        simp [updateTask, hij, hlt, this]

/-- After the second phase each task `i < j` has completed with the token of
its own refresh call; no further call was issued. -/
theorem cache_phase2 (resp : Nat → String × Nat) (now : Nat) (n : Nat) :
    ∀ j, j ≤ n → ∃ tok expv,
      runSched resp now
          ⟨"", 0, fun i => if i < n then .awaitingRefresh i else .start, n⟩
          (List.range j) =
        ⟨tok, expv,
         fun i => if i < j then .done (resp i).1
                  else if i < n then .awaitingRefresh i else .start, n⟩ := by
  intro j
  induction j with
  | zero =>
    intro _
    refine ⟨"", 0, ?_⟩
    simp [runSched]
  | succ j ih =>
    intro hjn
    obtain ⟨tok, expv, hrun⟩ := ih (Nat.le_of_succ_le hjn)
    refine ⟨(resp j).1, now + (resp j).2 - 60, ?_⟩
    rw [List.range_succ, runSched_append, hrun]
    show step resp now _ j = _
    have hjj : ¬ j < j := by simp
    have hjn2 : j < n := hjn
    have hj : (if j < j then TaskState.done (resp j).1
        else if j < n then TaskState.awaitingRefresh j else TaskState.start)
        = TaskState.awaitingRefresh j := by simp [hjj, hjn2]
    simp only [step, hj]
    refine congrArg (fun t => SysState.mk (resp j).1 (now + (resp j).2 - 60) t n) ?_
    funext i
    by_cases hij : i = j
    · subst hij
      simp [updateTask]
    · by_cases hlt : i < j
      · simp [updateTask, hij, hlt, Nat.lt_succ_of_lt hlt]
      · have : ¬ i < j + 1 := by omega
        simp [updateTask, hij, hlt, this]

/-! ## Claim theorems -/

/-- C3: `has_ticket` is true iff some returned order has a position whose
item equals the configured live-ticket product id; an empty result list
yields false (and the computation is total, so no error is raised). -/
theorem c3_has_ticket_iff (orders : OrdersData) (live_ticket_id : Int) :
    (hasTicketOf orders live_ticket_id = true ↔
      ∃ o ∈ orders.results, ∃ p ∈ o.positions, p.item = some live_ticket_id)
    ∧ hasTicketOf ⟨[]⟩ live_ticket_id = false := by
  constructor
  · simp [hasTicketOf, List.any_eq_true]
  · rfl

/-- C5: for every email, entitlement bit and registration map, and every
verification time before the expiry, decoding the created token succeeds
and returns exactly the input claims. -/
theorem c5_roundtrip (email : String) (has_ticket : Bool) (tracks : List (String × Bool))
    (secret : String) (t0 jwt_exp now : Nat) (h : now < t0 + jwt_exp) :
    decode_token (create_token email has_ticket tracks secret t0 jwt_exp) secret now =
      .ok ⟨some email, some has_ticket, some tracks, t0 + jwt_exp⟩ := by
  simp [decode_token, create_token, jwtDecode, Nat.not_le.mpr h]

theorem c5_roundtrip_witness :
    1000 < 0 + 1300 ∧
      decode_token (create_token "alice@example.com" true [("s1", true)] "sec" 0 1300)
          "sec" 1000 =
        .ok ⟨some "alice@example.com", some true, some [("s1", true)], 0 + 1300⟩ :=
  ⟨by decide, c5_roundtrip "alice@example.com" true [("s1", true)] "sec" 0 1300 1000 (by decide)⟩

/-- C6: an issued credential decoded strictly after its expiry fails with
the 401 Token expired outcome and strictly before succeeds; a secret or
algorithm mismatch, or a malformed token, fails with 401 Invalid token. -/
theorem c6_expiry_boundary_and_invalid (email : String) (has_ticket : Bool)
    (tracks : List (String × Bool)) (secret : String) (t0 jwt_exp nowA nowB now : Nat)
    (p : JwtPayload) (sec2 alg2 raw : String)
    (hafter : t0 + jwt_exp < nowA) (hbefore : nowB < t0 + jwt_exp)
    (hmismatch : ¬ (sec2 = secret ∧ alg2 = "HS256")) :
    decode_token (create_token email has_ticket tracks secret t0 jwt_exp) secret nowA =
        .error ⟨401, "Token expired"⟩
    ∧ decode_token (create_token email has_ticket tracks secret t0 jwt_exp) secret nowB =
        .ok ⟨some email, some has_ticket, some tracks, t0 + jwt_exp⟩
    ∧ decode_token (.signed p sec2 alg2) secret now = .error ⟨401, "Invalid token"⟩
    ∧ decode_token (.malformed raw) secret now = .error ⟨401, "Invalid token"⟩ := by
  refine ⟨?_, ?_, ?_, ?_⟩
  · simp [decode_token, create_token, jwtDecode, Nat.le_of_lt hafter]
  · simp [decode_token, create_token, jwtDecode, Nat.not_le.mpr hbefore]
  · simp [decode_token, jwtDecode, hmismatch]
  · simp [decode_token, jwtDecode]

theorem c6_expiry_boundary_and_invalid_witness :
    0 + 300 < 301 ∧ 299 < 0 + 300 ∧ ¬ (("bad" : String) = "sec" ∧ ("HS256" : String) = "HS256")
    ∧ (decode_token (create_token "a@b.c" true [] "sec" 0 300) "sec" 301 =
        .error ⟨401, "Token expired"⟩
      ∧ decode_token (create_token "a@b.c" true [] "sec" 0 300) "sec" 299 =
        .ok ⟨some "a@b.c", some true, some [], 0 + 300⟩
      ∧ decode_token (.signed ⟨none, none, none, 999⟩ "bad" "HS256") "sec" 0 =
        .error ⟨401, "Invalid token"⟩
      ∧ decode_token (.malformed "garbage") "sec" 0 = .error ⟨401, "Invalid token"⟩) :=
  ⟨by decide, by decide, by decide,
   c6_expiry_boundary_and_invalid "a@b.c" true [] "sec" 0 300 301 299 0
     ⟨none, none, none, 999⟩ "bad" "HS256" "garbage" (by decide) (by decide) (by decide)⟩

/-- C7: when the orders resolve to `has_ticket = false` the registration
step is skipped entirely (empty J-Stream call trace) and the issued server
credential carries an empty registration map, whatever streams are
configured. -/
theorem c7_no_ticket_skips_registration (env : CallbackEnv) (tracks : List Track)
    (live_ticket_id : Int) (secret static_page_url : String) (jwt_exp now : Nat)
    (atok email : String) (orders_data : OrdersData)
    (h1 : env.tokenResp = .ok (some atok)) (h2 : env.userResp = .ok (some email))
    (h3 : env.ordersResp = .ok orders_data)
    (h4 : hasTicketOf orders_data live_ticket_id = false) :
    oauth_callback env tracks live_ticket_id secret static_page_url jwt_exp now =
      .ok (⟨email, false, [],
            .signed ⟨none, some false, none, now + 60⟩ secret "HS256",
            .signed ⟨some email, none, some [], now + jwt_exp⟩ secret "HS256",
            static_page_url⟩, []) := by
  simp [oauth_callback, h1, h2, h3, h4]

theorem c7_no_ticket_skips_registration_witness :
    hasTicketOf ⟨[⟨[⟨some 7⟩]⟩]⟩ 42 = false ∧
      oauth_callback ⟨.ok (some "at"), .ok (some "bob@example.com"), .ok ⟨[⟨[⟨some 7⟩]⟩]⟩,
          .ok (some "ct"), fun _ => true⟩
          [⟨some "t1", some "s1"⟩, ⟨some "t2", some "s2"⟩] 42 "sec" "https://page" 300 1000 =
        .ok (⟨"bob@example.com", false, [],
              .signed ⟨none, some false, none, 1000 + 60⟩ "sec" "HS256",
              .signed ⟨some "bob@example.com", none, some [], 1000 + 300⟩ "sec" "HS256",
              "https://page"⟩, []) :=
  ⟨by decide,
   c7_no_ticket_skips_registration ⟨.ok (some "at"), .ok (some "bob@example.com"),
       .ok ⟨[⟨[⟨some 7⟩]⟩]⟩, .ok (some "ct"), fun _ => true⟩
     [⟨some "t1", some "s1"⟩, ⟨some "t2", some "s2"⟩] 42 "sec" "https://page" 300 1000
     "at" "bob@example.com" ⟨[⟨[⟨some 7⟩]⟩]⟩ rfl rfl rfl (by decide)⟩

/-- C10: a validly signed, unexpired token whose payload lacks the email
claim (the front token shape) makes `/session` answer with the generic 500
from the catch-all handler (the `KeyError`), not a 401 or 403, whether the
token arrives via the cookie or the bearer header. -/
theorem c10_missing_email_is_500 (p : JwtPayload) (secret : String) (now : Nat)
    (stream_id : String) (is_debug : Bool) (ctr sr : UpResp (Option String))
    (authenticated_url : String)
    (he : p.email = none) (hexp : now < p.exp) :
    get_session_id (some (.signed p secret "HS256")) none secret now stream_id is_debug
        ctr sr authenticated_url =
      (.error ⟨500, "Error occurred while obtaining session ID"⟩, [])
    ∧ get_session_id none (some (.signed p secret "HS256")) secret now stream_id is_debug
        ctr sr authenticated_url =
      (.error ⟨500, "Error occurred while obtaining session ID"⟩, []) := by
  constructor <;>
    simp [get_session_id, pickToken, jwtDecode, he, Nat.not_le.mpr hexp]

theorem c10_missing_email_is_500_witness :
    (⟨none, some true, none, 1060⟩ : JwtPayload).email = none ∧ 1000 < 1060 ∧
      get_session_id (some (.signed ⟨none, some true, none, 1060⟩ "sec" "HS256")) none
          "sec" 1000 "s1" false (.ok (some "ct")) (.ok (some "sid")) "https://u" =
        (.error ⟨500, "Error occurred while obtaining session ID"⟩, []) :=
  ⟨rfl, by decide,
   (c10_missing_email_is_500 ⟨none, some true, none, 1060⟩ "sec" 1000 "s1" false
     (.ok (some "ct")) (.ok (some "sid")) "https://u" rfl (by decide)).1⟩

/-- C2: a structurally valid, unexpired credential whose registration map
lacks the requested stream (or holds false there) makes both `/session`
variants answer 403 NotRegistered with an empty provider-call trace, while
`/verify` on the same credential succeeds and returns its claims. -/
theorem c2_session_denied_verify_ok (p : JwtPayload) (e : String) (hb : Bool)
    (m : List (String × Bool)) (secret : String) (now : Nat) (stream_id : String)
    (is_debug : Bool) (ctr sr ctr2 sr2 : UpResp (Option String))
    (authenticated_url au2 : String)
    (he : p.email = some e) (hh : p.has_ticket = some hb)
    (hm : p.jstream_registered_tracks = some m)
    (hexp : now < p.exp)
    (hreg : (lookupAssoc stream_id m).getD false = false) :
    get_session_id (some (.signed p secret "HS256")) none secret now stream_id is_debug
        ctr sr authenticated_url =
      (.error ⟨403, "User not registered for this stream."⟩, [])
    ∧ get_session (.signed p secret "HS256") secret now stream_id ctr2 sr2 au2 =
      (.error ⟨403, "User is not registered for this stream."⟩, [])
    ∧ verify (.signed p secret "HS256") secret now = .ok (e, hb, m) := by
  refine ⟨?_, ?_, ?_⟩
  · simp [get_session_id, pickToken, jwtDecode, he, hm, hreg, Nat.not_le.mpr hexp]
  · simp [get_session, decode_token, jwtDecode, hm, hreg, Nat.not_le.mpr hexp]
  · simp [verify, decode_token, jwtDecode, he, hh, hm, Nat.not_le.mpr hexp]

theorem c2_session_denied_verify_ok_witness :
    (⟨some "alice@example.com", some true, some [("s1", true)], 2000⟩ : JwtPayload).email =
        some "alice@example.com"
    ∧ 1000 < 2000
    ∧ (lookupAssoc "s2" [("s1", true)]).getD false = false
    ∧ (get_session_id
          (some (.signed ⟨some "alice@example.com", some true, some [("s1", true)], 2000⟩
            "sec" "HS256")) none "sec" 1000 "s2" false (.ok (some "ct")) (.ok (some "sid"))
          "https://u" =
        (.error ⟨403, "User not registered for this stream."⟩, [])
      ∧ get_session
          (.signed ⟨some "alice@example.com", some true, some [("s1", true)], 2000⟩
            "sec" "HS256") "sec" 1000 "s2" (.ok (some "ct")) (.ok (some "sid")) "https://u" =
        (.error ⟨403, "User is not registered for this stream."⟩, [])
      ∧ verify
          (.signed ⟨some "alice@example.com", some true, some [("s1", true)], 2000⟩
            "sec" "HS256") "sec" 1000 =
        .ok ("alice@example.com", true, [("s1", true)])) :=
  ⟨rfl, by decide, by decide,
   c2_session_denied_verify_ok ⟨some "alice@example.com", some true, some [("s1", true)], 2000⟩
     "alice@example.com" true [("s1", true)] "sec" 1000 "s2" false
     (.ok (some "ct")) (.ok (some "sid")) (.ok (some "ct")) (.ok (some "sid"))
     "https://u" "https://u" rfl rfl rfl (by decide) (by decide)⟩

/-- Helper for C1: a successful callback either ran the registration loop
(ticket holder) or skipped it with an empty map and trace. -/
theorem oauth_callback_ok_cases (env : CallbackEnv) (tracks : List Track)
    (live_ticket_id : Int) (secret static_page_url : String) (jwt_exp now : Nat)
    (res : CallbackOk) (calls : List JCall)
    (h : oauth_callback env tracks live_ticket_id secret static_page_url jwt_exp now =
          .ok (res, calls)) :
    (res.jstream_registered_tracks = runRegistration env.regSuccess tracks []
      ∧ calls = JCall.clientToken :: (registrationCalls tracks).map JCall.register)
    ∨ (res.jstream_registered_tracks = [] ∧ calls = []) := by
  obtain ⟨tr, ur, orr, ctr, reg⟩ := env
  cases tr with
  | httpErr st => simp [oauth_callback] at h
  | netErr => simp [oauth_callback] at h
  | ok atok =>
    cases atok with
    | none => simp [oauth_callback] at h
    | some a =>
      cases ur with
      | httpErr st => simp [oauth_callback] at h
      | netErr => simp [oauth_callback] at h
      | ok em =>
        cases em with
        | none => simp [oauth_callback] at h
        | some email =>
          cases orr with
          | httpErr st => simp [oauth_callback] at h
          | netErr => simp [oauth_callback] at h
          | ok od =>
            by_cases hht : hasTicketOf od live_ticket_id = true
            · cases ctr with
              | httpErr st => simp [oauth_callback, hht] at h
              | netErr => simp [oauth_callback, hht] at h
              | ok ct =>
                left
                simp [oauth_callback, hht] at h
                obtain ⟨hres, hcalls⟩ := h
                subst hres
                exact ⟨rfl, hcalls.symm⟩
            · right
              rw [Bool.not_eq_true] at hht
              simp [oauth_callback, hht] at h
              obtain ⟨hres, hcalls⟩ := h
              subst hres
              exact ⟨rfl, hcalls⟩

/-- Membership in the attempted-registration list is exactly being a
configured stream id. -/
theorem mem_registrationCalls (tracks : List Track) (s : String) :
    s ∈ registrationCalls tracks ↔ some s ∈ tracks.map Track.stream_id := by
  induction tracks with
  | nil => simp [registrationCalls]
  | cons t rest ih =>
    cases htrack : t.stream_id with
    | none => simp [registrationCalls, htrack, ih]
    | some sid => simp [registrationCalls, htrack, ih]

/-- C1: for every completed login, the issued credential's registration map
holds `true` for a stream iff a registration call was made for it and that
call succeeded; failed or skipped registrations never yield a `true`
entry. -/
theorem c1_registration_map_iff_success (env : CallbackEnv) (tracks : List Track)
    (live_ticket_id : Int) (secret static_page_url : String) (jwt_exp now : Nat)
    (res : CallbackOk) (calls : List JCall) (s : String)
    (h : oauth_callback env tracks live_ticket_id secret static_page_url jwt_exp now =
          .ok (res, calls)) :
    lookupAssoc s res.jstream_registered_tracks = some true ↔
      (JCall.register s ∈ calls ∧ env.regSuccess s = true) := by
  rcases oauth_callback_ok_cases env tracks live_ticket_id secret static_page_url jwt_exp now
      res calls h with ⟨hmap, hcalls⟩ | ⟨hmap, hcalls⟩
  · rw [hmap, hcalls, lookupAssoc_runRegistration]
    simp [lookupAssoc, List.mem_map, and_comm]
  · rw [hmap, hcalls]
    simp [lookupAssoc]

theorem c1_registration_map_iff_success_witness :
    oauth_callback ⟨.ok (some "at"), .ok (some "alice@example.com"), .ok ⟨[⟨[⟨some 42⟩]⟩]⟩,
        .ok (some "ct"), fun sid => sid == "s1"⟩
        [⟨some "t1", some "s1"⟩, ⟨some "t2", some "s2"⟩] 42 "sec" "https://page" 300 1000 =
      .ok (⟨"alice@example.com", true, [("s1", true)],
            .signed ⟨none, some true, none, 1060⟩ "sec" "HS256",
            .signed ⟨some "alice@example.com", none, some [("s1", true)], 1300⟩ "sec" "HS256",
            "https://page"⟩,
           [JCall.clientToken, JCall.register "s1", JCall.register "s2"])
    ∧ (lookupAssoc "s1" [("s1", true)] = some true ↔
        (JCall.register "s1" ∈ [JCall.clientToken, JCall.register "s1", JCall.register "s2"]
          ∧ (("s1" : String) == "s1") = true))
    ∧ (lookupAssoc "s2" [("s1", true)] = some true ↔
        (JCall.register "s2" ∈ [JCall.clientToken, JCall.register "s1", JCall.register "s2"]
          ∧ (("s2" : String) == "s1") = true)) :=
  ⟨rfl,
   c1_registration_map_iff_success ⟨.ok (some "at"), .ok (some "alice@example.com"),
       .ok ⟨[⟨[⟨some 42⟩]⟩]⟩, .ok (some "ct"), fun sid => sid == "s1"⟩
     [⟨some "t1", some "s1"⟩, ⟨some "t2", some "s2"⟩] 42 "sec" "https://page" 300 1000
     ⟨"alice@example.com", true, [("s1", true)],
       .signed ⟨none, some true, none, 1060⟩ "sec" "HS256",
       .signed ⟨some "alice@example.com", none, some [("s1", true)], 1300⟩ "sec" "HS256",
       "https://page"⟩
     [JCall.clientToken, JCall.register "s1", JCall.register "s2"] "s1" rfl,
   c1_registration_map_iff_success ⟨.ok (some "at"), .ok (some "alice@example.com"),
       .ok ⟨[⟨[⟨some 42⟩]⟩]⟩, .ok (some "ct"), fun sid => sid == "s1"⟩
     [⟨some "t1", some "s1"⟩, ⟨some "t2", some "s2"⟩] 42 "sec" "https://page" 300 1000
     ⟨"alice@example.com", true, [("s1", true)],
       .signed ⟨none, some true, none, 1060⟩ "sec" "HS256",
       .signed ⟨some "alice@example.com", none, some [("s1", true)], 1300⟩ "sec" "HS256",
       "https://page"⟩
     [JCall.clientToken, JCall.register "s1", JCall.register "s2"] "s2" rfl⟩

/-- C4: for a ticket holder, one stream's registration failure leaves that
stream out of the map, does not stop the other streams' registration, and
does not abort the login: the callback still succeeds, both streams' calls
appear in the trace, and the server credential still carries the partial
map. -/
theorem c4_partial_failure_still_issues (env : CallbackEnv) (tracks : List Track)
    (live_ticket_id : Int) (secret static_page_url : String) (jwt_exp now : Nat)
    (atok email : String) (orders_data : OrdersData) (ct : Option String) (a b : String)
    (h1 : env.tokenResp = .ok (some atok)) (h2 : env.userResp = .ok (some email))
    (h3 : env.ordersResp = .ok orders_data)
    (h4 : hasTicketOf orders_data live_ticket_id = true)
    (h5 : env.clientTokResp = .ok ct)
    (ha : some a ∈ tracks.map Track.stream_id) (hb : some b ∈ tracks.map Track.stream_id)
    (hra : env.regSuccess a = false) (hrb : env.regSuccess b = true) :
    oauth_callback env tracks live_ticket_id secret static_page_url jwt_exp now =
      .ok (⟨email, true, runRegistration env.regSuccess tracks [],
            .signed ⟨none, some true, none, now + 60⟩ secret "HS256",
            .signed ⟨some email, none, some (runRegistration env.regSuccess tracks []),
              now + jwt_exp⟩ secret "HS256",
            static_page_url⟩,
           JCall.clientToken :: (registrationCalls tracks).map JCall.register)
    ∧ lookupAssoc b (runRegistration env.regSuccess tracks []) = some true
    ∧ lookupAssoc a (runRegistration env.regSuccess tracks []) = none
    ∧ JCall.register a ∈ JCall.clientToken :: (registrationCalls tracks).map JCall.register
    ∧ JCall.register b ∈ JCall.clientToken :: (registrationCalls tracks).map JCall.register := by
  refine ⟨?_, ?_, ?_, ?_, ?_⟩
  · simp [oauth_callback, h1, h2, h3, h4, h5]
  · rw [lookupAssoc_runRegistration]
    exact Or.inl ⟨(mem_registrationCalls tracks b).mpr hb, hrb⟩
  · rw [lookupAssoc_runRegistration_fail env.regSuccess tracks [] a hra]
    rfl
  · exact List.mem_cons_of_mem _ (List.mem_map_of_mem _ ((mem_registrationCalls tracks a).mpr ha))
  · exact List.mem_cons_of_mem _ (List.mem_map_of_mem _ ((mem_registrationCalls tracks b).mpr hb))

theorem c4_partial_failure_still_issues_witness :
    hasTicketOf ⟨[⟨[⟨some 42⟩]⟩]⟩ 42 = true
    ∧ some "sA" ∈ ([⟨some "t1", some "sA"⟩, ⟨some "t2", some "sB"⟩] : List Track).map
        Track.stream_id
    ∧ (oauth_callback ⟨.ok (some "at"), .ok (some "alice@example.com"), .ok ⟨[⟨[⟨some 42⟩]⟩]⟩,
          .ok (some "ct"), fun sid => sid == "sB"⟩
          [⟨some "t1", some "sA"⟩, ⟨some "t2", some "sB"⟩] 42 "sec" "https://page" 300 1000 =
        .ok (⟨"alice@example.com", true,
              runRegistration (fun sid => sid == "sB")
                [⟨some "t1", some "sA"⟩, ⟨some "t2", some "sB"⟩] [],
              .signed ⟨none, some true, none, 1000 + 60⟩ "sec" "HS256",
              .signed ⟨some "alice@example.com", none,
                some (runRegistration (fun sid => sid == "sB")
                  [⟨some "t1", some "sA"⟩, ⟨some "t2", some "sB"⟩] []), 1000 + 300⟩
                "sec" "HS256",
              "https://page"⟩,
             JCall.clientToken ::
               (registrationCalls [⟨some "t1", some "sA"⟩, ⟨some "t2", some "sB"⟩]).map
                 JCall.register)
      ∧ lookupAssoc "sB" (runRegistration (fun sid => sid == "sB")
          [⟨some "t1", some "sA"⟩, ⟨some "t2", some "sB"⟩] []) = some true
      ∧ lookupAssoc "sA" (runRegistration (fun sid => sid == "sB")
          [⟨some "t1", some "sA"⟩, ⟨some "t2", some "sB"⟩] []) = none
      ∧ JCall.register "sA" ∈ JCall.clientToken ::
          (registrationCalls [⟨some "t1", some "sA"⟩, ⟨some "t2", some "sB"⟩]).map
            JCall.register
      ∧ JCall.register "sB" ∈ JCall.clientToken ::
          (registrationCalls [⟨some "t1", some "sA"⟩, ⟨some "t2", some "sB"⟩]).map
            JCall.register) :=
  ⟨by decide, by decide,
   c4_partial_failure_still_issues ⟨.ok (some "at"), .ok (some "alice@example.com"),
       .ok ⟨[⟨[⟨some 42⟩]⟩]⟩, .ok (some "ct"), fun sid => sid == "sB"⟩
     [⟨some "t1", some "sA"⟩, ⟨some "t2", some "sB"⟩] 42 "sec" "https://page" 300 1000
     "at" "alice@example.com" ⟨[⟨[⟨some 42⟩]⟩]⟩ (some "ct") "sA" "sB"
     rfl rfl rfl (by decide) rfl (by decide) (by decide) (by decide) (by decide)⟩

/-- C8 counterexample: in the app/main.py variant the session-id step does
NOT fail when the 2xx body omits `session_id` — it returns the missing id
(`None`) successfully; with the debug flag the surrounding `/session`
request then even succeeds, answering the fixed test URL. -/
theorem c8_counterexample :
    getJstreamUserSessionId (UpResp.ok none) = Except.ok none
    ∧ get_session_id
        (some (.signed ⟨some "alice@example.com", none, some [("s1", true)], 2000⟩
          "sec" "HS256")) none "sec" 1000 "s1" true (.ok (some "ct")) (.ok none) "https://u" =
      (Except.ok "https://test-streams.mux.dev/x36xhzz/x36xhzz.m3u8",
       [JCall.clientToken, JCall.session "s1"]) :=
  ⟨rfl, rfl⟩

/-- C8 amended: the services/jstream.py variant `get_jstream_session_id`
fails with an HTTPException on a transport error, a non-2xx response, or a
body omitting `session_id`; the app/main.py variant fails on transport
error and non-2xx but returns the missing id on a 2xx body without it, and
the `/session` request then fails with the generic catch-all 500 (when not
in debug mode).  In every case, a returned non-debug playback URL was built
from a session id the provider actually supplied. -/
theorem c8_amended_session_step_failures (st : Nat) (p : JwtPayload) (e : String)
    (m : List (String × Bool)) (secret ct : String) (now : Nat) (stream_id : String)
    (authenticated_url : String)
    (he : p.email = some e) (hm : p.jstream_registered_tracks = some m)
    (hr : (lookupAssoc stream_id m).getD false = true) (hexp : now < p.exp) :
    get_jstream_session_id (UpResp.ok none) =
        .error ⟨500, "J-StreamセッションIDの取得に失敗しました。"⟩
    ∧ get_jstream_session_id (UpResp.httpErr st) =
        .error ⟨st, "J-StreamセッションIDの取得に失敗しました。"⟩
    ∧ get_jstream_session_id UpResp.netErr =
        .error ⟨500, "J-StreamセッションIDの取得に失敗しました。"⟩
    ∧ getJstreamUserSessionId (UpResp.httpErr st) =
        .error ⟨st, "Failed to get JSTREAM user session ID"⟩
    ∧ getJstreamUserSessionId UpResp.netErr =
        .error ⟨500, "JSTREAMセッションID取得中にエラーが発生しました。"⟩
    ∧ get_session_id (some (.signed p secret "HS256")) none secret now stream_id false
        (UpResp.ok (some ct)) (UpResp.ok none) authenticated_url =
      (.error ⟨500, "Error occurred while obtaining session ID"⟩,
       [JCall.clientToken, JCall.session stream_id])
    ∧ ∀ (ctr sr : UpResp (Option String)) (au2 u : String) (calls : List JCall),
        get_session_id (some (.signed p secret "HS256")) none secret now stream_id false
            ctr sr au2 = (.ok u, calls) →
          ∃ z, sr = UpResp.ok (some z) ∧ u = au2.replace sessionIdPattern z := by
  refine ⟨rfl, rfl, rfl, rfl, rfl, ?_, ?_⟩
  · simp [get_session_id, pickToken, jwtDecode, he, hm, hr, Nat.not_le.mpr hexp,
      getJstreamUserSessionId, buildPlaybackUrl]
  · intro ctr sr au2 u calls hok
    cases ctr with
    | httpErr st2 =>
      simp [get_session_id, pickToken, jwtDecode, he, hm, hr, Nat.not_le.mpr hexp] at hok
    | netErr =>
      simp [get_session_id, pickToken, jwtDecode, he, hm, hr, Nat.not_le.mpr hexp] at hok
    | ok ct2 =>
      cases sr with
      | httpErr st2 =>
        simp [get_session_id, pickToken, jwtDecode, he, hm, hr, Nat.not_le.mpr hexp,
          getJstreamUserSessionId] at hok
      | netErr =>
        simp [get_session_id, pickToken, jwtDecode, he, hm, hr, Nat.not_le.mpr hexp,
          getJstreamUserSessionId] at hok
      | ok sid =>
        cases sid with
        | none =>
          simp [get_session_id, pickToken, jwtDecode, he, hm, hr, Nat.not_le.mpr hexp,
            getJstreamUserSessionId, buildPlaybackUrl] at hok
        | some z =>
          refine ⟨z, rfl, ?_⟩
          simp [get_session_id, pickToken, jwtDecode, he, hm, hr, Nat.not_le.mpr hexp,
            getJstreamUserSessionId, buildPlaybackUrl] at hok
          exact hok.1.symm

theorem c8_amended_session_step_failures_witness :
    (⟨some "alice@example.com", none, some [("s1", true)], 2000⟩ : JwtPayload).email =
        some "alice@example.com"
    ∧ (lookupAssoc "s1" [("s1", true)]).getD false = true
    ∧ 1000 < 2000
    ∧ (get_jstream_session_id (UpResp.ok none) =
          .error ⟨500, "J-StreamセッションIDの取得に失敗しました。"⟩
      ∧ get_jstream_session_id (UpResp.httpErr 502) =
          .error ⟨502, "J-StreamセッションIDの取得に失敗しました。"⟩
      ∧ get_jstream_session_id UpResp.netErr =
          .error ⟨500, "J-StreamセッションIDの取得に失敗しました。"⟩
      ∧ getJstreamUserSessionId (UpResp.httpErr 502) =
          .error ⟨502, "Failed to get JSTREAM user session ID"⟩
      ∧ getJstreamUserSessionId UpResp.netErr =
          .error ⟨500, "JSTREAMセッションID取得中にエラーが発生しました。"⟩
      ∧ get_session_id
          (some (.signed ⟨some "alice@example.com", none, some [("s1", true)], 2000⟩
            "sec" "HS256")) none "sec" 1000 "s1" false (UpResp.ok (some "ct"))
          (UpResp.ok none) "https://u" =
        (.error ⟨500, "Error occurred while obtaining session ID"⟩,
         [JCall.clientToken, JCall.session "s1"])
      ∧ ∀ (ctr sr : UpResp (Option String)) (au2 u : String) (calls : List JCall),
          get_session_id
              (some (.signed ⟨some "alice@example.com", none, some [("s1", true)], 2000⟩
                "sec" "HS256")) none "sec" 1000 "s1" false ctr sr au2 = (.ok u, calls) →
            ∃ z, sr = UpResp.ok (some z) ∧ u = au2.replace sessionIdPattern z) :=
  ⟨rfl, by decide, by decide,
   c8_amended_session_step_failures 502 ⟨some "alice@example.com", none,
       some [("s1", true)], 2000⟩ "alice@example.com" [("s1", true)] "sec" "ct" 1000 "s1"
     "https://u" rfl rfl (by decide) (by decide)⟩

/-- C9 counterexample: two overlapped callers of the client-token cache,
starting with no token held, each make their own upstream refresh call (two
calls, not one) and receive different token values. -/
theorem c9_counterexample :
    (runSched (fun k => ("tok" ++ toString k, 3600)) 1000 initSys [0, 1, 0, 1]).calls = 2
    ∧ (runSched (fun k => ("tok" ++ toString k, 3600)) 1000 initSys [0, 1, 0, 1]).tasks 0 =
        .done "tok0"
    ∧ (runSched (fun k => ("tok" ++ toString k, 3600)) 1000 initSys [0, 1, 0, 1]).tasks 1 =
        .done "tok1"
    ∧ ("tok0" : String) ≠ "tok1" :=
  ⟨by decide, by decide, by decide, by decide⟩

/-- C9 amended: the cache has no single-flight serialization.  Every caller
that checks the cache before any refresh completes issues its own upstream
call: the fully overlapped schedule of n callers makes exactly n refresh
calls and each caller ends with the token of its own call (so values can
differ).  Only non-overlapping calls reuse the cache: when a first call
completes before a second begins, one refresh happens and both callers get
the same token.  Each cache write is a single atomic segment, so no torn
token/expiry pair is ever observed. -/
theorem c9_amended_no_single_flight (n : Nat) (resp : Nat → String × Nat) (now : Nat) :
    (runSched resp now initSys (interleavedSched n)).calls = n
    ∧ (∀ i, i < n →
        (runSched resp now initSys (interleavedSched n)).tasks i = .done (resp i).1)
    ∧ (runSched (fun _ => ("tok", 3600)) 1000 initSys [0, 0, 1, 1]).calls = 1
    ∧ (runSched (fun _ => ("tok", 3600)) 1000 initSys [0, 0, 1, 1]).tasks 0 = .done "tok"
    ∧ (runSched (fun _ => ("tok", 3600)) 1000 initSys [0, 0, 1, 1]).tasks 1 = .done "tok" := by
  obtain ⟨tok, expv, h2⟩ := cache_phase2 resp now n n (le_refl n)
  have hrun : runSched resp now initSys (interleavedSched n) =
      ⟨tok, expv,
       fun i => if i < n then .done (resp i).1
                else if i < n then .awaitingRefresh i else .start, n⟩ := by
    rw [interleavedSched, runSched_append, cache_phase1, h2]
  refine ⟨by rw [hrun], ?_, by decide, by decide, by decide⟩
  intro i hi
  rw [hrun]
  simp [hi]

theorem c9_amended_no_single_flight_witness :
    (runSched (fun k => ("tk" ++ toString k, 3600)) 1000 initSys (interleavedSched 2)).calls = 2
    ∧ (runSched (fun k => ("tk" ++ toString k, 3600)) 1000 initSys
        (interleavedSched 2)).tasks 0 = .done "tk0" :=
  ⟨(c9_amended_no_single_flight 2 (fun k => ("tk" ++ toString k, 3600)) 1000).1,
   (c9_amended_no_single_flight 2 (fun k => ("tk" ++ toString k, 3600)) 1000).2.1 0 (by decide)⟩

end KeyTicket
